import Mathlib

/-!
Shallow embedding of the repository's glue code that the specification
describes: the Kong gateway bootstrapper (`services/kong/init-kong.sh`),
the lifecycle scripts (`bin/start.sh`, `bin/restart.sh`), and the
frontend client layer (`frontend/src/main.tsx`).
-/

namespace StrUtil

/-- `pat` begins the character list. -/
def beginsWith : List Char → List Char → Bool
  | [], _ => true
  | _ :: _, [] => false
  | p :: ps, x :: rest => p == x && beginsWith ps rest

/-- `pat` occurs somewhere in the character list. -/
def occursIn (pat : List Char) : List Char → Bool
  | [] => beginsWith pat []
  | x :: rest => beginsWith pat (x :: rest) || occursIn pat rest

/-- Substring test (JavaScript `s.includes(pat)`, bash `grep -qF`). -/
def strContains (s pat : String) : Bool :=
  occursIn pat.toList s.toList

/-- `s` begins with `pat`. -/
def strBegins (s pat : String) : Bool :=
  beginsWith pat.toList s.toList

/-- Character-wise lowercasing (agrees with JavaScript `toLowerCase` on
the ASCII text involved here). -/
def strLower (s : String) : String :=
  String.mk (s.toList.map Char.toLower)

end StrUtil

namespace InitKong

/-- A Kong route as stored by the control plane.  The admin API only
assigns a name when the creating POST carries a `name=` field; the
bootstrap script's `create_route_if_not_exists` sends only the
`route_data` arguments, so the name may be absent. -/
structure Route where
  rname : Option String
  rdata : List String
deriving DecidableEq, Repr

/-- A Kong plugin attached to a service: a name plus configuration
fields. -/
structure Plugin where
  pname : String
  pconfig : List String
deriving DecidableEq, Repr

/-- A Kong service: logical name, upstream url, and the routes and
plugins attached to it. -/
structure Service where
  name : String
  url : String
  routes : List Route
  plugins : List Plugin
deriving DecidableEq, Repr

/-- The control-plane state: the list of services (with their routes
and plugins) held by Kong. -/
abbrev KongState := List Service

/-- `GET /services/<name>` answers with an `"id"` field exactly when a
service of that name exists. -/
def service_exists (st : KongState) (name : String) : Bool :=
  st.any (fun s => s.name == name)

/-- First service carrying the given name, as seen by the admin API. -/
def findService (st : KongState) (name : String) : Option Service :=
  st.find? (fun s => s.name == name)

/-- `GET /services/<sname>/routes/<rname>` answers with an `"id"` field
exactly when the service exists and holds a route with that name. -/
def route_exists (st : KongState) (sname rname : String) : Bool :=
  match findService st sname with
  | none => false
  | some s => s.routes.any (fun r => r.rname == some rname)

/-- The grep over `GET /services/<sname>/plugins` finds
`"name":"<pname>"` exactly when the service exists and its plugin list
holds a plugin of that name. -/
def plugin_listed (st : KongState) (sname pname : String) : Bool :=
  match findService st sname with
  | none => false
  | some s => s.plugins.any (fun p => p.pname == pname)

/-- An admin-API response, as the script observes it by grepping the
body: a created entity (`"id"` present), a uniqueness conflict
(`UNIQUE violation` present), or any other failure. -/
inductive AdminResp where
  | created
  | uniqueViolation
  | failed
deriving DecidableEq, Repr

/-- Replace the first service with the given name. -/
def updateService (st : KongState) (sname : String) (f : Service → Service) :
    KongState :=
  match st with
  | [] => []
  | s :: rest =>
      if s.name == sname then f s :: rest
      else s :: updateService rest sname f

/-- `POST /services` with `name=` and `url=`: creates the service unless
the name is taken, in which case Kong reports a uniqueness violation and
the state is unchanged. -/
def adminCreateService (st : KongState) (name url : String) :
    KongState × AdminResp :=
  if service_exists st name then (st, .uniqueViolation)
  else (st ++ [{ name := name, url := url, routes := [], plugins := [] }],
        .created)

/-- The `name=` field of a form-encoded payload, when present. -/
def payloadName (fields : List String) : Option String :=
  (fields.find? (fun f => StrUtil.strBegins f "name=")).map (fun f => f.drop 5)

/-- `POST /services/<sname>/routes` with the given form fields: fails if
the service is absent; reports a uniqueness violation if the payload
names an already-present route; otherwise creates a route whose name is
the payload's `name=` field when one was sent. -/
def adminCreateRoute (st : KongState) (sname : String) (fields : List String) :
    KongState × AdminResp :=
  match findService st sname with
  | none => (st, .failed)
  | some s =>
      match payloadName fields with
      | some n =>
          if s.routes.any (fun r => r.rname == some n) then
            (st, .uniqueViolation)
          else
            (updateService st sname
              (fun s => { s with routes := s.routes ++ [⟨some n, fields⟩] }),
             .created)
      | none =>
          (updateService st sname
            (fun s => { s with routes := s.routes ++ [⟨none, fields⟩] }),
           .created)

/-- `POST /services/<sname>/plugins` with `name=<pname>` and config
fields: fails if the service is absent; reports a uniqueness violation
if a plugin of that name is already attached; otherwise creates it. -/
def adminCreatePlugin (st : KongState) (sname pname : String)
    (config : List String) : KongState × AdminResp :=
  match findService st sname with
  | none => (st, .failed)
  | some s =>
      if s.plugins.any (fun p => p.pname == pname) then (st, .uniqueViolation)
      else
        (updateService st sname
          (fun s => { s with plugins := s.plugins ++ [⟨pname, config⟩] }),
         .created)

/-- A create call issued by the script, with the success it reported. -/
inductive Event where
  | createService (name : String) (ok : Bool)
  | createRoute (sname rname : String) (ok : Bool)
  | createPlugin (sname pname : String) (ok : Bool)
deriving DecidableEq, Repr

/-- `create_service_if_not_exists`: query by name, skip when present;
otherwise POST, treating `"id"` and `UNIQUE violation` responses as
success and anything else as failure (return 1). -/
def create_service_if_not_exists (st : KongState) (name url : String) :
    KongState × List Event × Bool :=
  if service_exists st name then (st, [], true)
  else
    match adminCreateService st name url with
    | (st2, .created) => (st2, [.createService name true], true)
    | (st2, .uniqueViolation) => (st2, [.createService name true], true)
    | (st2, .failed) => (st2, [.createService name false], false)

/-- `create_route_if_not_exists`: query the route by name under the
service, skip when present; otherwise POST the `route_data` fields
(and only those fields — no `name=` is added), treating `"id"` and
`UNIQUE violation` as success and anything else as failure. -/
def create_route_if_not_exists (st : KongState) (sname rname : String)
    (route_data : List String) : KongState × List Event × Bool :=
  if route_exists st sname rname then (st, [], true)
  else
    match adminCreateRoute st sname route_data with
    | (st2, .created) => (st2, [.createRoute sname rname true], true)
    | (st2, .uniqueViolation) => (st2, [.createRoute sname rname true], true)
    | (st2, .failed) => (st2, [.createRoute sname rname false], false)

/-- `create_plugin_if_not_exists`: grep the service's plugin list for
the name, skip when present; otherwise POST `name=<pname>` plus the
config fields; a failure is logged and skipped (return 0 either way). -/
def create_plugin_if_not_exists (st : KongState) (sname pname : String)
    (plugin_data : List String) : KongState × List Event × Bool :=
  if plugin_listed st sname pname then (st, [], true)
  else
    match adminCreatePlugin st sname pname plugin_data with
    | (st2, .created) => (st2, [.createPlugin sname pname true], true)
    | (st2, _) => (st2, [.createPlugin sname pname false], true)

/-- One declaration of the fixed topology that the script applies. -/
inductive Decl where
  | service (name url : String)
  | route (sname rname : String) (route_data : List String)
  | plugin (sname pname : String) (plugin_data : List String)
deriving DecidableEq, Repr

/-- Environment of a bootstrap run: `STACK_NAME`, `DOMAIN`,
`ENVIRONMENT`. -/
structure Config where
  stackName : String
  domain : String
  environment : String
deriving DecidableEq, Repr

/-- Outcome of a run: final control-plane state, the create calls
issued, and the return code (success flag) of each ensure call. -/
structure RunResult where
  state : KongState
  events : List Event
  oks : List Bool
deriving DecidableEq, Repr

/-- Apply one declaration through the matching ensure function. -/
def applyDecl (st : KongState) : Decl → KongState × List Event × Bool
  | .service n u => create_service_if_not_exists st n u
  | .route s r d => create_route_if_not_exists st s r d
  | .plugin s p d => create_plugin_if_not_exists st s p d

/-- Run the declarations in order, threading the state (the script runs
under `set +e`, so execution continues past failures). -/
def runDecls (st : KongState) : List Decl → RunResult
  | [] => { state := st, events := [], oks := [] }
  | d :: ds =>
      let (st1, evs, ok) := applyDecl st d
      let r := runDecls st1 ds
      { state := r.state, events := evs ++ r.events, oks := ok :: r.oks }

/-- The declared topology of `init-kong.sh`, in script order: backend
service, backend routes (the path route only when `ENVIRONMENT=local`),
the cors plugin, frontend service and routes, adminer service and
route. -/
def declsFor (cfg : Config) : List Decl :=
  [.service (cfg.stackName ++ "-backend") "http://backend:8000/api"]
  ++ (if cfg.environment == "local" then
        [.route (cfg.stackName ++ "-backend")
          (cfg.stackName ++ "-backend-route-path")
          ["paths[]=/api", "strip_path=true"]]
      else [])
  ++ [.route (cfg.stackName ++ "-backend")
        (cfg.stackName ++ "-backend-route-host")
        ["hosts[]=api." ++ cfg.domain, "paths[]=/api", "strip_path=true"],
      .plugin (cfg.stackName ++ "-backend") "cors"
        ["config.origins=*", "config.methods=GET", "config.methods=POST",
         "config.methods=PUT", "config.methods=DELETE",
         "config.methods=OPTIONS", "config.methods=PATCH",
         "config.credentials=true", "config.max_age=3600"],
      .service (cfg.stackName ++ "-frontend")
        (if cfg.environment == "local" then "http://frontend:5173"
         else "http://frontend:80")]
  ++ (if cfg.environment == "local" then
        [.route (cfg.stackName ++ "-frontend")
          (cfg.stackName ++ "-frontend-route-path")
          ["paths[]=/dashboard", "paths[]=/login", "paths[]=/signup",
           "paths[]=/", "strip_path=false"]]
      else [])
  ++ [.route (cfg.stackName ++ "-frontend")
        (cfg.stackName ++ "-frontend-route-host")
        ["hosts[]=dashboard." ++ cfg.domain, "paths[]=/"],
      .service (cfg.stackName ++ "-adminer") "http://adminer:8080",
      .route (cfg.stackName ++ "-adminer")
        (cfg.stackName ++ "-adminer-route")
        ["hosts[]=adminer." ++ cfg.domain]]

/-- One full configuration pass of `init-kong.sh` (after the readiness
gate). -/
def runInit (cfg : Config) (st : KongState) : RunResult :=
  runDecls st (declsFor cfg)

/-- The default configuration of the script (`STACK_NAME`, `DOMAIN`,
`ENVIRONMENT` defaults). -/
def defaultConfig : Config :=
  { stackName := "full-stack-fastapi-project", domain := "localhost",
    environment := "local" }

/-- `max_attempts=60` of the readiness gate. -/
def max_attempts : Nat := 60

/-- The fixed `sleep 2` interval (seconds) between polling attempts. -/
def sleepInterval : Nat := 2

/-- Outcome of the readiness gate: how many status requests were made,
whether readiness was observed, how many sleeps were taken, whether the
exhaustion message was printed, and whether execution went on to the
configuration steps.  (The script's top-level `return 0` on exhaustion
is not legal in an executed bash script: bash prints an error, the
`return` fails under `set +e`, and execution continues, so the
configuration steps are reached on both paths.) -/
structure PollOutcome where
  attempts : Nat
  ready : Bool
  sleeps : Nat
  warned : Bool
  proceeded : Bool
deriving DecidableEq, Repr

/-- The `while [ $attempt -lt $max_attempts ]` loop, indexed by the
remaining iteration budget `max_attempts - attempt`: issue the status
request; break when the datastore is reachable; otherwise increment,
print the exhaustion message when the counter hits the bound (the
failed `return 0` does not stop the script), and sleep before the next
test of the guard. -/
def pollFrom (readyAt : Nat → Bool) :
    Nat → Nat → Nat → PollOutcome
  | 0, attempt, sleeps =>
      { attempts := attempt, ready := false, sleeps := sleeps,
        warned := false, proceeded := true }
  | remaining + 1, attempt, sleeps =>
      if readyAt attempt then
        { attempts := attempt + 1, ready := true, sleeps := sleeps,
          warned := false, proceeded := true }
      else if remaining == 0 then
        { attempts := attempt + 1, ready := false, sleeps := sleeps + 1,
          warned := true, proceeded := true }
      else
        pollFrom readyAt remaining (attempt + 1) (sleeps + 1)

/-- The readiness gate of `init-kong.sh`: poll from `attempt=0` with the
full budget.  `readyAt i` tells whether the `i`-th status request finds
`"database":` reachable. -/
def kongPoll (readyAt : Nat → Bool) : PollOutcome :=
  pollFrom readyAt max_attempts 0 0

end InitKong

namespace Lifecycle

/-- An observable step of a lifecycle script: a printed line or an
invocation of the container orchestrator CLI. -/
inductive Step where
  | echoLine (s : String)
  | docker (cmd : String)
deriving DecidableEq, Repr

/-- Result of a script run: the steps it performed and its exit code
(orchestrator commands are modelled as succeeding; the scripts swallow
most internal failures anyway). -/
structure ScriptResult where
  steps : List Step
  exitCode : Nat
deriving DecidableEq, Repr

/-- The `^(dev|staging|prod)$` check used by the scripts. -/
def validEnv (e : String) : Bool :=
  e == "dev" || e == "staging" || e == "prod"

/-- The `case $ENVIRONMENT` table mapping to `ENV_FILE` (only ever
applied to a validated environment, so the catch-all is `prod`). -/
def envFileFor : String → String
  | "dev" => ".env.dev"
  | "staging" => ".env.staging"
  | _ => ".env.prod"

/-- The `case $ENVIRONMENT` table mapping to `COMPOSE_FILE`. -/
def composeFileFor : String → String
  | "dev" => "compose.dev.yml"
  | "staging" => "compose.staging.yml"
  | _ => "compose.prod.yml"

/-- The `case $ENVIRONMENT` table mapping to `ENV_NAME`. -/
def envNameFor : String → String
  | "dev" => "开发环境"
  | "staging" => "预发布环境"
  | _ => "生产环境"

/-- Whether an argument is the airflow flag (`--with-airflow` / `-a`). -/
def isAirflowFlag (a : Option String) : Bool :=
  a == some "--with-airflow" || a == some "-a"

/-- `bin/start.sh`: `ENVIRONMENT=${1:-dev}`, airflow-flag handling
(a flag in position 1 resets the environment to `dev`), the
`^(dev|staging|prod)$` validation with usage message and `exit 1`, the
environment-file existence check with `exit 1`, then the orchestrator
steps (tear-down, cleanup, up-with-build), which we keep abstract. -/
def startScript (arg1 arg2 : Option String) (fileExists : String → Bool) :
    ScriptResult :=
  let env0 := arg1.getD "dev"
  let environment :=
    if isAirflowFlag arg2 then env0
    else if isAirflowFlag arg1 then "dev"
    else env0
  let withAirflow := isAirflowFlag arg2 || isAirflowFlag arg1
  if !(validEnv environment) then
    { steps := [.echoLine ("❌ 错误: 无效的环境 '" ++ environment ++ "'"),
                .echoLine "用法:",
                .echoLine "  ./bin/start.sh [dev|staging|prod] [--with-airflow]"],
      exitCode := 1 }
  else
    let envFile := envFileFor environment
    let composeFiles :=
      "-f compose.yml -f compose.kong.yml -f " ++ composeFileFor environment
        ++ (if withAirflow then " -f compose.airflow.yml" else "")
    if !(fileExists envFile) then
      { steps := [.echoLine ("🚀 启动" ++ envNameFor environment ++ "..."),
                  .echoLine ("❌ 错误: 环境配置文件不存在: " ++ envFile)],
        exitCode := 1 }
    else
      { steps := [.echoLine ("🚀 启动" ++ envNameFor environment ++ "..."),
                  .docker ("compose " ++ composeFiles ++ " down --remove-orphans"),
                  .docker ("compose " ++ composeFiles ++ " up -d --build")],
        exitCode := 0 }

/-- The parsed argument state of `bin/restart.sh` after its positional
handling: a first argument that is not a valid environment is taken to
be the service name, with the environment defaulting to `dev` and the
third argument dropped; `--no-build` in the service slot empties the
service name. -/
structure RestartArgs where
  environment : String
  serviceName : String
  noBuild : Bool
deriving DecidableEq, Repr

/-- Argument parsing of `bin/restart.sh` (absent positionals are the
empty string, as in bash). -/
def parseRestartArgs (arg1 arg2 arg3 : String) : RestartArgs :=
  let triple :=
    if !(validEnv arg1) then ("dev", arg1, arg2)
    else (arg1, arg2, arg3)
  let sn0 := triple.2.1
  let noBuildFlag := triple.2.2
  let noBuild := sn0 == "--no-build" || noBuildFlag == "--no-build"
  let serviceName := if sn0 == "--no-build" then "" else sn0
  { environment := triple.1, serviceName := serviceName, noBuild := noBuild }

/-- One member of a bracket expression: a single character or a
range. -/
inductive BItem where
  | one (c : Char)
  | range (lo hi : Char)
deriving DecidableEq, Repr

/-- One atom of a basic regular expression: a literal character, the
`.` wildcard, or a bracket expression (with its negation flag). -/
inductive RAtom where
  | lit (c : Char)
  | dot
  | bracket (neg : Bool) (items : List BItem)
deriving DecidableEq, Repr

/-- Parse the members of a bracket expression up to the closing `]`
(a `-` directly before the `]` is a literal member; `a-b` is a range);
`none` on an unterminated bracket, which grep rejects — and a rejected
pattern makes `grep -q` report no match. -/
def parseBracketItems : List Char → Option (List BItem × List Char)
  | [] => none
  | ']' :: rest => some ([], rest)
  | c :: '-' :: d :: rest =>
      if d == ']' then some ([BItem.one c, BItem.one '-'], rest)
      else
        match parseBracketItems rest with
        | none => none
        | some (items, rest2) => some (BItem.range c d :: items, rest2)
  | c :: rest =>
      match parseBracketItems rest with
      | none => none
      | some (items, rest2) => some (BItem.one c :: items, rest2)

/-- Parse a bracket expression after its opening `[`: an optional
leading `^` negates, and a `]` right after that is a literal member. -/
def parseBracket (cs : List Char) : Option (RAtom × List Char) :=
  match cs with
  | '^' :: ']' :: rest =>
      (parseBracketItems rest).map
        (fun p => (RAtom.bracket true (BItem.one ']' :: p.1), p.2))
  | '^' :: rest =>
      (parseBracketItems rest).map (fun p => (RAtom.bracket true p.1, p.2))
  | ']' :: rest =>
      (parseBracketItems rest).map
        (fun p => (RAtom.bracket false (BItem.one ']' :: p.1), p.2))
  | rest =>
      (parseBracketItems rest).map (fun p => (RAtom.bracket false p.1, p.2))

/-- Strip a run of `*` after an atom: whether at least one star was
seen (a run collapses to one repetition operator, as in grep), and the
remainder. -/
def dropStars : List Char → Bool × List Char
  | [] => (false, [])
  | c :: rest =>
      if c == '*' then (true, (dropStars rest).2)
      else (false, c :: rest)

/-- Parse a basic regular expression into atoms with repetition flags.
`fuel` is an upper bound on the remaining length (each atom consumes at
least one character).  Modelled constructs: literal characters,
backslash escapes taken as the escaped literal, `.`, postfix `*`, and
bracket expressions; a `*` with no preceding atom is a literal, as in
grep.  GNU operator escapes (groups, intervals, `\|` and the like) and
POSIX named classes are not modelled; `none` stands for a pattern grep
rejects, which `grep -q` reports as no match. -/
def parseAtomsF : Nat → List Char → Option (List (RAtom × Bool))
  | _, [] => some []
  | 0, _ :: _ => none
  | fuel + 1, c :: rest =>
      if c == '\\' then
        match rest with
        | [] => none
        | d :: rest2 =>
            let s := dropStars rest2
            (parseAtomsF fuel s.2).map (fun l => (RAtom.lit d, s.1) :: l)
      else if c == '[' then
        match parseBracket rest with
        | none => none
        | some (a, rest2) =>
            let s := dropStars rest2
            (parseAtomsF fuel s.2).map (fun l => (a, s.1) :: l)
      else
        let a := if c == '.' then RAtom.dot else RAtom.lit c
        let s := dropStars rest
        (parseAtomsF fuel s.2).map (fun l => (a, s.1) :: l)

/-- Whether an atom matches one character. -/
def atomMatches : RAtom → Char → Bool
  | RAtom.lit c, x => c == x
  | RAtom.dot, _ => true
  | RAtom.bracket neg items, x =>
      let inSet := items.any (fun it =>
        match it with
        | BItem.one c => c == x
        | BItem.range lo hi => decide (lo ≤ x) && decide (x ≤ hi))
      if neg then !inSet else inSet

/-- Anchored matching of an atom list against a whole line (the grep
pattern is `^NAME$`).  `fuel` bounds the recursion: every step shortens
the atom list or the line. -/
def matchHereF : Nat → List (RAtom × Bool) → List Char → Bool
  | _, [], [] => true
  | _, [], _ :: _ => false
  | 0, _ :: _, _ => false
  | fuel + 1, (a, star) :: ps, line =>
      if star then
        matchHereF fuel ps line ||
          (match line with
           | [] => false
           | c :: cs => atomMatches a c && matchHereF fuel ((a, star) :: ps) cs)
      else
        match line with
        | [] => false
        | c :: cs => atomMatches a c && matchHereF fuel ps cs

/-- `echo "$line" | grep -q "^${pattern}$"`: the service name is pasted
into an anchored basic regular expression and tested against one line
of the service list. -/
def breMatch (pattern line : String) : Bool :=
  match parseAtomsF pattern.toList.length pattern.toList with
  | none => false
  | some atoms => matchHereF (atoms.length + line.toList.length) atoms line.toList

/-- `bin/restart.sh`: parse arguments, require a service name (usage and
`exit 1` otherwise), then validate it with
`grep -q "^${SERVICE_NAME}$"` over the resolved compose service list
(`docker compose ... config --services`, passed in as `services`) — the
name is interpreted as an anchored regex — printing the list and
exiting 1 when no line matches; then build (unless `--no-build`), stop,
remove and start the service.  The orchestrator resolves the service by
its exact name: when the grep matched only as a regex and no service of
that name exists, the first compose command naming it fails and
`set -e` aborts the script with that command's status (1); otherwise the
compose commands are modelled as succeeding. -/
def restartScript (arg1 arg2 arg3 : String) (services : List String) :
    ScriptResult :=
  let a := parseRestartArgs arg1 arg2 arg3
  if a.serviceName == "" then
    { steps := [.echoLine "❌ 错误: 请指定服务名称", .echoLine "用法:"],
      exitCode := 1 }
  else if !(services.any (fun line => breMatch a.serviceName line)) then
    { steps := [.echoLine ("❌ 错误: 服务 '" ++ a.serviceName ++ "' 在 "
                  ++ envNameFor a.environment ++ " 中不存在"),
                .echoLine "可用服务:"]
             ++ services.map (fun s => .echoLine ("  - " ++ s)),
      exitCode := 1 }
  else
    let composeFiles :=
      "-f compose.yml -f compose.kong.yml -f " ++ composeFileFor a.environment
    if services.contains a.serviceName then
      { steps := (if a.noBuild then []
                  else [.docker ("compose " ++ composeFiles
                          ++ " build --no-cache " ++ a.serviceName)])
               ++ [.docker ("compose " ++ composeFiles ++ " stop " ++ a.serviceName),
                   .docker ("compose " ++ composeFiles ++ " rm -f " ++ a.serviceName),
                   .docker ("compose " ++ composeFiles ++ " up -d " ++ a.serviceName)],
        exitCode := 0 }
    else
      { steps := (if a.noBuild
                  then [.docker ("compose " ++ composeFiles ++ " stop "
                          ++ a.serviceName)]
                  else [.docker ("compose " ++ composeFiles
                          ++ " build --no-cache " ++ a.serviceName)]),
        exitCode := 1 }

end Lifecycle

namespace Frontend

/-- Browser local storage as a key-value list. -/
abbrev Storage := List (String × String)

/-- `localStorage.getItem`. -/
def getItem (st : Storage) (k : String) : Option String :=
  (st.find? (fun p => p.1 == k)).map (fun p => p.2)

/-- `localStorage.removeItem`. -/
def removeItem (st : Storage) (k : String) : Storage :=
  st.filter (fun p => !(p.1 == k))

/-- The browser state the error handler touches: local storage and the
window location. -/
structure Browser where
  storage : Storage
  href : String
deriving DecidableEq, Repr

/-- The error shape inspected by `handleApiError`: any of `status`,
`response.status`, `detail`, `message` may be absent. -/
structure ApiError where
  status : Option Nat
  responseStatus : Option Nat
  detail : Option String
  message : Option String
deriving DecidableEq, Repr

/-- JavaScript `a || b` on numbers (`0`, `undefined` are falsy). -/
def jsOrNat : Option Nat → Option Nat → Option Nat
  | some v, b => if v == 0 then b else some v
  | none, b => b

/-- JavaScript `a || b` on strings (`""`, `undefined` are falsy). -/
def jsOrStr : Option String → Option String → Option String
  | some s, b => if s == "" then b else some s
  | none, b => b

/-- JavaScript `s.includes(pat)`. -/
def strContains (s pat : String) : Bool :=
  StrUtil.strContains s pat

/-- `status && [401, 403].includes(status)` on the resolved status. -/
def statusIsAuthError : Option Nat → Bool
  | some v => v == 401 || v == 403
  | none => false

/-- `detail === "User not found" ||
detail?.toLowerCase().includes("user not found")`. -/
def detailUserNotFound : Option String → Bool
  | none => false
  | some s => s == "User not found"
      || strContains (StrUtil.strLower s) "user not found"

/-- The auth-error recognizer of `useAuth`'s `queryFn` (401/403 aside):
`errDetail === "Could not validate credentials" ||
errDetail?.includes("not authenticated") ||
errDetail?.includes("Not authenticated")`. -/
def recognizesNotAuthenticated : Option String → Bool
  | none => false
  | some s =>
      s == "Could not validate credentials"
        || strContains s "not authenticated"
        || strContains s "Not authenticated"

/-- A side effect performed by the error handler. -/
inductive FxAction where
  | removeToken
  | navigate (dest : String)
deriving DecidableEq, Repr

/-- `handleApiError` of `main.tsx`, installed as `onError` of both the
query cache and the mutation cache: resolve
`status = err.status || err.response?.status` and
`detail = err.detail || err.message`; on 401/403 clear the token and
set `window.location.href = "/login"`; otherwise do the same when the
detail is the `User not found` message; otherwise fall through with no
effect. -/
def handleApiError (err : ApiError) (b : Browser) : Browser × List FxAction :=
  let status := jsOrNat err.status err.responseStatus
  let detail := jsOrStr err.detail err.message
  if statusIsAuthError status then
    ({ storage := removeItem b.storage "access_token", href := "/login" },
     [.removeToken, .navigate "/login"])
  else if detailUserNotFound detail then
    ({ storage := removeItem b.storage "access_token", href := "/login" },
     [.removeToken, .navigate "/login"])
  else
    (b, [])

/-- The request options the OpenAPI interceptor sees. -/
structure RequestOptions where
  url : String
  headers : List (String × String)
deriving DecidableEq, Repr

/-- Object spread `{ ...headers, Authorization: v }`: the key's value is
replaced, the entry appearing once. -/
def setHeader (hs : List (String × String)) (k v : String) :
    List (String × String) :=
  hs.filter (fun p => !(p.1 == k)) ++ [(k, v)]

/-- The first header carrying the given name. -/
def getHeader (opts : RequestOptions) (k : String) : Option String :=
  (opts.headers.find? (fun p => p.1 == k)).map (fun p => p.2)

/-- `OpenAPI.interceptors.request.use` of `main.tsx`: read
`access_token` from local storage; `if (token)` — truthy, so present
and non-empty (the empty string is falsy in JavaScript) — return the
options with an added `Authorization: Bearer <token>` header; otherwise
return the options unchanged. -/
def requestInterceptor (storage : Storage) (options : RequestOptions) :
    RequestOptions :=
  match getItem storage "access_token" with
  | some token =>
      if token == "" then options
      else
        { options with
            headers := setHeader options.headers "Authorization"
              ("Bearer " ++ token) }
  | none => options

end Frontend

section Helpers

/-- Looking a key up after `removeItem` of that key finds nothing. -/
theorem getItem_removeItem (st : Frontend.Storage) (k : String) :
    Frontend.getItem (Frontend.removeItem st k) k = none := by
  induction st with
  | nil => rfl
  | cons p rest ih =>
      by_cases hpk : p.1 == k
      · simp [Frontend.removeItem, List.filter, hpk]
        exact ih
      · simp only [Bool.not_eq_true] at hpk
        simp [Frontend.removeItem, Frontend.getItem, List.filter,
          List.find?, hpk]

/-- Finding a key in `priorHeaders.filter (≠ key) ++ [(key, v)]` yields
`(key, v)`. -/
theorem find?_filtered_append (hs : List (String × String)) (k v : String) :
    List.find? (fun p => p.1 == k)
        (hs.filter (fun p => !(p.1 == k)) ++ [(k, v)]) = some (k, v) := by
  induction hs with
  | nil => simp [List.find?]
  | cons p rest ih =>
      by_cases hpk : p.1 == k
      · simp [List.filter, hpk]
      · simp only [Bool.not_eq_true] at hpk
        simp [List.filter, List.find?, hpk]

/-- The invariant of the readiness-polling loop `pollFrom`, for any
remaining budget, attempt counter and sleep counter. -/
theorem pollFrom_invariant (readyAt : Nat → Bool) :
    ∀ (remaining attempt sleeps : Nat),
      (InitKong.pollFrom readyAt remaining attempt sleeps).proceeded = true ∧
      attempt ≤ (InitKong.pollFrom readyAt remaining attempt sleeps).attempts ∧
      (InitKong.pollFrom readyAt remaining attempt sleeps).attempts ≤ attempt + remaining ∧
      (∀ j, attempt ≤ j →
        j + 1 < (InitKong.pollFrom readyAt remaining attempt sleeps).attempts →
        readyAt j = false) ∧
      ((InitKong.pollFrom readyAt remaining attempt sleeps).ready = true →
        ∃ k, attempt ≤ k ∧
          (InitKong.pollFrom readyAt remaining attempt sleeps).attempts = k + 1 ∧
          readyAt k = true ∧
          (InitKong.pollFrom readyAt remaining attempt sleeps).sleeps = sleeps + (k - attempt) ∧
          (InitKong.pollFrom readyAt remaining attempt sleeps).warned = false) ∧
      ((InitKong.pollFrom readyAt remaining attempt sleeps).ready = false →
        (InitKong.pollFrom readyAt remaining attempt sleeps).sleeps
          = sleeps + ((InitKong.pollFrom readyAt remaining attempt sleeps).attempts - attempt) ∧
        (remaining = 0 ∨
          ((InitKong.pollFrom readyAt remaining attempt sleeps).attempts = attempt + remaining ∧
           (InitKong.pollFrom readyAt remaining attempt sleeps).warned = true ∧
           ∀ j, attempt ≤ j → j < attempt + remaining → readyAt j = false))) := by
  intro remaining
  induction remaining with
  | zero =>
      intro attempt sleeps
      have hstep : InitKong.pollFrom readyAt 0 attempt sleeps =
          { attempts := attempt, ready := false, sleeps := sleeps,
            warned := false, proceeded := true } := rfl
      rw [hstep]; dsimp only
      refine ⟨rfl, le_refl _, by omega, ?_, ?_, ?_⟩
      · intro j hj hj2
        exact absurd hj2 (by omega)
      · intro h; exact absurd h (by simp)
      · intro _
        exact ⟨by omega, Or.inl rfl⟩
  | succ r ih =>
      intro attempt sleeps
      cases hra : readyAt attempt with
      | true =>
          have hstep : InitKong.pollFrom readyAt (r + 1) attempt sleeps =
              { attempts := attempt + 1, ready := true, sleeps := sleeps,
                warned := false, proceeded := true } := by
            simp [InitKong.pollFrom, hra]
          rw [hstep]; dsimp only
          refine ⟨rfl, by omega, by omega, ?_, ?_, ?_⟩
          · intro j hj hj2
            exact absurd hj2 (by omega)
          · intro _
            exact ⟨attempt, le_refl _, rfl, hra, by omega, rfl⟩
          · intro h; exact absurd h (by simp)
      | false =>
          cases r with
          | zero =>
              have hstep : InitKong.pollFrom readyAt (0 + 1) attempt sleeps =
                  { attempts := attempt + 1, ready := false, sleeps := sleeps + 1,
                    warned := true, proceeded := true } := by
                simp [InitKong.pollFrom, hra]
              rw [hstep]; dsimp only
              refine ⟨rfl, by omega, by omega, ?_, ?_, ?_⟩
              · intro j hj hj2
                exact absurd hj2 (by omega)
              · intro h; exact absurd h (by simp)
              · intro _
                refine ⟨by omega, Or.inr ⟨by omega, rfl, ?_⟩⟩
                intro j hj hj2
                have hje : j = attempt := by omega
                rw [hje]; exact hra
          | succ r2 =>
              have hstep : InitKong.pollFrom readyAt (r2 + 1 + 1) attempt sleeps =
                  InitKong.pollFrom readyAt (r2 + 1) (attempt + 1) (sleeps + 1) := by
                simp [InitKong.pollFrom, hra]
              rw [hstep]
              obtain ⟨hp, hle1, hle2, hC, hT, hF⟩ := ih (attempt + 1) (sleeps + 1)
              refine ⟨hp, by omega, by omega, ?_, ?_, ?_⟩
              · intro j hj hj2
                rcases Nat.eq_or_lt_of_le hj with hj3 | hj3
                · rw [← hj3]; exact hra
                · exact hC j hj3 hj2
              · intro hr
                obtain ⟨k, hk1, hk2, hk3, hk4, hk5⟩ := hT hr
                exact ⟨k, by omega, hk2, hk3, by omega, hk5⟩
              · intro hr
                obtain ⟨hs1, hs2⟩ := hF hr
                rcases hs2 with hz | ⟨ha, hw, hall⟩
                · omega
                · refine ⟨by omega, Or.inr ⟨by omega, hw, ?_⟩⟩
                  intro j hj hj2
                  rcases Nat.eq_or_lt_of_le hj with hj3 | hj3
                  · rw [← hj3]; exact hra
                  · exact hall j hj3 (by omega)

end Helpers

/-- Claim C1: the claim states that a second bootstrap run against the
state left by a first run performs no create call and leaves the state
unchanged.  The code violates this: the route-creating POST omits the
`name=` field, so routes are stored unnamed, the second run's lookup of
each route by name misses, and the second run issues a fresh create
call per route, appending duplicate routes.  Evaluated here at the
script's default configuration starting from an empty control plane:
the second run issues five route-create calls and changes the state. -/
theorem initKong_second_run_duplicates_routes :
    (InitKong.runInit InitKong.defaultConfig
        (InitKong.runInit InitKong.defaultConfig []).state).events =
      [.createRoute "full-stack-fastapi-project-backend"
          "full-stack-fastapi-project-backend-route-path" true,
       .createRoute "full-stack-fastapi-project-backend"
          "full-stack-fastapi-project-backend-route-host" true,
       .createRoute "full-stack-fastapi-project-frontend"
          "full-stack-fastapi-project-frontend-route-path" true,
       .createRoute "full-stack-fastapi-project-frontend"
          "full-stack-fastapi-project-frontend-route-host" true,
       .createRoute "full-stack-fastapi-project-adminer"
          "full-stack-fastapi-project-adminer-route" true] ∧
    (InitKong.runInit InitKong.defaultConfig
        (InitKong.runInit InitKong.defaultConfig []).state).state ≠
      (InitKong.runInit InitKong.defaultConfig []).state := by
  exact ⟨by decide, by decide⟩

/-- Claim C6: when the service's plugin list already contains a plugin
whose name matches, `create_plugin_if_not_exists` performs no create
call, reports success, and leaves the state — in particular the
existing plugin's configuration — unchanged, whatever configuration is
declared. -/
theorem create_plugin_skips_existing (st : InitKong.KongState)
    (sname pname : String) (plugin_data : List String)
    (h : InitKong.plugin_listed st sname pname = true) :
    InitKong.create_plugin_if_not_exists st sname pname plugin_data
      = (st, [], true) := by
  simp [InitKong.create_plugin_if_not_exists, h]

/-- Witness for C6: a service with a `cors` plugin keeps its stored
configuration when the declared configuration differs. -/
theorem create_plugin_skips_existing_witness :
    InitKong.create_plugin_if_not_exists
        [{ name := "stack-backend", url := "http://backend:8000/api",
           routes := [],
           plugins := [{ pname := "cors",
                         pconfig := ["config.origins=*"] }] }]
        "stack-backend" "cors" ["config.origins=https://example.com"]
      = ([{ name := "stack-backend", url := "http://backend:8000/api",
            routes := [],
            plugins := [{ pname := "cors",
                          pconfig := ["config.origins=*"] }] }], [], true) :=
  create_plugin_skips_existing _ _ _ _ (by decide)

/-- Claim C5: the readiness gate performs at most `max_attempts = 60`
status requests with a fixed `sleepInterval = 2` second sleep between
attempts, exits the loop at the first request that reports the
datastore reachable, and on exhaustion prints the failure message and
still proceeds to the configuration steps (the top-level `return 0`
fails in an executed script and execution continues). -/
theorem kongPoll_spec (readyAt : Nat → Bool) :
    (InitKong.kongPoll readyAt).attempts ≤ InitKong.max_attempts ∧
    (InitKong.kongPoll readyAt).proceeded = true ∧
    (∀ j, j + 1 < (InitKong.kongPoll readyAt).attempts → readyAt j = false) ∧
    ((InitKong.kongPoll readyAt).ready = true →
        readyAt ((InitKong.kongPoll readyAt).attempts - 1) = true ∧
        (InitKong.kongPoll readyAt).warned = false ∧
        (InitKong.kongPoll readyAt).sleeps
          = (InitKong.kongPoll readyAt).attempts - 1) ∧
    ((InitKong.kongPoll readyAt).ready = false →
        (InitKong.kongPoll readyAt).attempts = InitKong.max_attempts ∧
        (InitKong.kongPoll readyAt).warned = true ∧
        (InitKong.kongPoll readyAt).sleeps = InitKong.max_attempts ∧
        ∀ j, j < InitKong.max_attempts → readyAt j = false) ∧
    InitKong.max_attempts = 60 ∧ InitKong.sleepInterval = 2 := by
  obtain ⟨hp, hle1, hle2, hC, hT, hF⟩ :=
    pollFrom_invariant readyAt InitKong.max_attempts 0 0
  simp only [InitKong.kongPoll]
  refine ⟨by simpa using hle2, hp, ?_, ?_, ?_, rfl, rfl⟩
  · intro j hj
    exact hC j (Nat.zero_le _) hj
  · intro hr
    obtain ⟨k, hk1, hk2, hk3, hk4, hk5⟩ := hT hr
    refine ⟨?_, hk5, ?_⟩
    · rw [hk2]; simpa using hk3
    · rw [hk2, hk4]; omega
  · intro hr
    obtain ⟨hs1, hs2⟩ := hF hr
    rcases hs2 with hz | ⟨ha, hw, hall⟩
    · exact absurd hz (by decide)
    · refine ⟨by simpa using ha, hw, by omega, ?_⟩
      intro j hj
      exact hall j (Nat.zero_le _) (by simpa using hj)

/-- Witness for C5: with readiness first reported at the fourth status
request the gate stops after four attempts, and with readiness never
reported it exhausts all sixty attempts and proceeds. -/
theorem kongPoll_spec_witness :
    ((InitKong.kongPoll (fun i => i == 3)).ready = true ∧
      (fun i : Nat => i == 3)
        ((InitKong.kongPoll (fun i => i == 3)).attempts - 1) = true) ∧
    ((InitKong.kongPoll (fun _ => false)).ready = false ∧
      (InitKong.kongPoll (fun _ => false)).attempts = InitKong.max_attempts ∧
      (InitKong.kongPoll (fun _ => false)).proceeded = true) :=
  ⟨⟨by decide, ((kongPoll_spec (fun i => i == 3)).2.2.2.1 (by decide)).1⟩,
   ⟨by decide, ((kongPoll_spec (fun _ => false)).2.2.2.2.1 (by decide)).1,
    (kongPoll_spec (fun _ => false)).2.1⟩⟩

/-- Claim C7: `start.sh` with an environment token that is not `dev`,
`staging` or `prod` (and is not one of the airflow flags, which stand
for `dev`) exits with status 1 after printing the usage message, with
no orchestrator command among its steps. -/
theorem startScript_invalid_env (e : String) (arg2 : Option String)
    (fileExists : String → Bool)
    (h : Lifecycle.validEnv e = false)
    (h2 : Lifecycle.isAirflowFlag (some e) = false) :
    (Lifecycle.startScript (some e) arg2 fileExists).exitCode = 1 ∧
    Lifecycle.Step.echoLine "用法:"
      ∈ (Lifecycle.startScript (some e) arg2 fileExists).steps ∧
    ∀ c, Lifecycle.Step.docker c
      ∉ (Lifecycle.startScript (some e) arg2 fileExists).steps := by
  have hres : Lifecycle.startScript (some e) arg2 fileExists =
      { steps := [.echoLine ("❌ 错误: 无效的环境 '" ++ e ++ "'"),
                  .echoLine "用法:",
                  .echoLine "  ./bin/start.sh [dev|staging|prod] [--with-airflow]"],
        exitCode := 1 } := by
    cases ha : Lifecycle.isAirflowFlag arg2 <;>
      simp [Lifecycle.startScript, ha, h, h2]
  rw [hres]
  refine ⟨rfl, by simp, ?_⟩
  intro c
  simp

/-- Witness for C7: `start.sh qa` exits 1. -/
theorem startScript_invalid_env_witness :
    (Lifecycle.startScript (some "qa") none (fun _ => true)).exitCode = 1 :=
  (startScript_invalid_env "qa" none (fun _ => true)
    (by decide) (by decide)).1

/-- Claim C8: `start.sh` with a valid environment whose environment
file (`.env.<environment>`) does not exist exits with status 1 and
prints an error line referencing the expected file path. -/
theorem startScript_missing_env_file (e : String) (arg2 : Option String)
    (fileExists : String → Bool)
    (hv : Lifecycle.validEnv e = true)
    (hf : fileExists (Lifecycle.envFileFor e) = false) :
    (Lifecycle.startScript (some e) arg2 fileExists).exitCode = 1 ∧
    Lifecycle.Step.echoLine ("❌ 错误: 环境配置文件不存在: "
        ++ Lifecycle.envFileFor e)
      ∈ (Lifecycle.startScript (some e) arg2 fileExists).steps ∧
    Lifecycle.envFileFor e = ".env." ++ e := by
  have he : e = "dev" ∨ e = "staging" ∨ e = "prod" := by
    simp only [Lifecycle.validEnv, Bool.or_eq_true, beq_iff_eq] at hv
    tauto
  rcases he with he | he | he <;> subst he
  · have hf2 : fileExists ".env.dev" = false := hf
    cases ha : Lifecycle.isAirflowFlag arg2 <;>
      simp [Lifecycle.startScript, Lifecycle.validEnv, Lifecycle.envFileFor,
        Lifecycle.isAirflowFlag, ha, hf2]
  · have hf2 : fileExists ".env.staging" = false := hf
    cases ha : Lifecycle.isAirflowFlag arg2 <;>
      simp [Lifecycle.startScript, Lifecycle.validEnv, Lifecycle.envFileFor,
        Lifecycle.isAirflowFlag, ha, hf2]
  · have hf2 : fileExists ".env.prod" = false := hf
    cases ha : Lifecycle.isAirflowFlag arg2 <;>
      simp [Lifecycle.startScript, Lifecycle.validEnv, Lifecycle.envFileFor,
        Lifecycle.isAirflowFlag, ha, hf2]

/-- Witness for C8: `start.sh dev` with no `.env.dev` present exits 1
and names the missing file. -/
theorem startScript_missing_env_file_witness :
    (Lifecycle.startScript (some "dev") none (fun _ => false)).exitCode = 1 ∧
    Lifecycle.Step.echoLine ("❌ 错误: 环境配置文件不存在: "
        ++ Lifecycle.envFileFor "dev")
      ∈ (Lifecycle.startScript (some "dev") none (fun _ => false)).steps :=
  ⟨(startScript_missing_env_file "dev" none (fun _ => false)
      (by decide) (by decide)).1,
   (startScript_missing_env_file "dev" none (fun _ => false)
      (by decide) (by decide)).2.1⟩

/-- Claim C3 counterexample: `restart.sh backend` has a first argument
that is not `dev`, `staging` or `prod`, yet when `backend` is a service
of the resolved compose configuration the script proceeds and exits
with status 0 (performing orchestrator commands), not 1. -/
theorem restartScript_invalid_env_counterexample :
    Lifecycle.validEnv "backend" = false ∧
    (Lifecycle.restartScript "backend" "" "" ["backend"]).exitCode = 0 ∧
    (Lifecycle.restartScript "backend" "" "" ["backend"]).exitCode ≠ 1 := by
  exact ⟨by decide, by decide, by decide⟩

/-- Claim C3 (amended): `restart.sh` does not reject an invalid
environment token; a first argument that is not `dev`, `staging` or
`prod` is reinterpreted as the service name under the default `dev`
environment (the third argument is dropped), so the invocation behaves
exactly like `restart.sh dev <arg1> <arg2>`; it exits 1 precisely
through the service checks, in particular whenever that first argument
is not in the resolved compose service list. -/
theorem restartScript_invalid_env_reinterpreted (e arg2 arg3 : String)
    (services : List String) (h : Lifecycle.validEnv e = false) :
    Lifecycle.restartScript e arg2 arg3 services
      = Lifecycle.restartScript "dev" e arg2 services ∧
    (services.contains e = false →
      (Lifecycle.restartScript e arg2 arg3 services).exitCode = 1) := by
  have hd : Lifecycle.validEnv "dev" = true := rfl
  have hp : Lifecycle.parseRestartArgs e arg2 arg3
      = Lifecycle.parseRestartArgs "dev" e arg2 := by
    simp [Lifecycle.parseRestartArgs, h, hd]
  constructor
  · simp only [Lifecycle.restartScript, hp]
  · intro hc
    by_cases hnb : e = "--no-build"
    · subst hnb
      simp [Lifecycle.restartScript, Lifecycle.parseRestartArgs, h, hd]
    · have hnb2 : (e == "--no-build") = false := beq_eq_false_iff_ne.mpr hnb
      by_cases hemp : e = ""
      · subst hemp
        simp [Lifecycle.restartScript, Lifecycle.parseRestartArgs, h, hd]
      · have hemp2 : (e == "") = false := beq_eq_false_iff_ne.mpr hemp
        have hc2 : e ∉ services := by simpa using hc
        cases hany : services.any (fun line => Lifecycle.breMatch e line) with
        | false =>
            simp [Lifecycle.restartScript, Lifecycle.parseRestartArgs, h, hd,
              hnb2, hemp2, hc2, hany]
        | true =>
            simp [Lifecycle.restartScript, Lifecycle.parseRestartArgs, h, hd,
              hnb2, hemp2, hc2, hany]

/-- Witness for the amended C3: `restart.sh qa backend extra` behaves
as `restart.sh dev qa backend` and exits 1 when `qa` is not a service. -/
theorem restartScript_invalid_env_reinterpreted_witness :
    Lifecycle.restartScript "qa" "backend" "extra" ["backend"]
      = Lifecycle.restartScript "dev" "qa" "backend" ["backend"] ∧
    (Lifecycle.restartScript "qa" "backend" "extra" ["backend"]).exitCode = 1 :=
  ⟨(restartScript_invalid_env_reinterpreted "qa" "backend" "extra" ["backend"]
      (by decide)).1,
   (restartScript_invalid_env_reinterpreted "qa" "backend" "extra" ["backend"]
      (by decide)).2 (by decide)⟩

/-- Claim C2 counterexample: an error whose detail is the recognized
authentication message `Not authenticated` (exactly the string the
`useAuth` hook treats as an auth failure) but whose status fields are
absent is ignored by the centralized `handleApiError`: the stored
token survives and no navigation happens. -/
theorem handleApiError_not_authenticated_counterexample :
    Frontend.recognizesNotAuthenticated (some "Not authenticated") = true ∧
    Frontend.handleApiError
        { status := none, responseStatus := none,
          detail := some "Not authenticated", message := none }
        { storage := [("access_token", "tok")], href := "/admin" }
      = ({ storage := [("access_token", "tok")], href := "/admin" }, []) ∧
    Frontend.getItem
        (Frontend.handleApiError
          { status := none, responseStatus := none,
            detail := some "Not authenticated", message := none }
          { storage := [("access_token", "tok")], href := "/admin" }).1.storage
        "access_token" = some "tok" := by
  exact ⟨by decide, by decide, by decide⟩

/-- Claim C2 (amended): for every error event delivered to the
centralized handler, if the resolved status (`err.status` or else
`err.response.status`) is 401 or 403, or the resolved detail
(`err.detail` or else `err.message`) is exactly `User not found` or
contains `user not found` case-insensitively, the handler removes the
stored `access_token` and navigates to `/login`, performing exactly one
token removal and one navigation per error event; a bare
`Not authenticated` detail does not trigger it. -/
theorem handleApiError_clears_and_redirects (err : Frontend.ApiError)
    (b : Frontend.Browser)
    (h : Frontend.statusIsAuthError
          (Frontend.jsOrNat err.status err.responseStatus) = true ∨
        Frontend.detailUserNotFound
          (Frontend.jsOrStr err.detail err.message) = true) :
    Frontend.getItem (Frontend.handleApiError err b).1.storage "access_token"
        = none ∧
    (Frontend.handleApiError err b).1.storage
        = Frontend.removeItem b.storage "access_token" ∧
    (Frontend.handleApiError err b).1.href = "/login" ∧
    (Frontend.handleApiError err b).2
        = [.removeToken, .navigate "/login"] ∧
    ((Frontend.handleApiError err b).2.count
        (Frontend.FxAction.navigate "/login") = 1) ∧
    ((Frontend.handleApiError err b).2.count Frontend.FxAction.removeToken
        = 1) := by
  cases hs : Frontend.statusIsAuthError
      (Frontend.jsOrNat err.status err.responseStatus) with
  | true =>
      simp [Frontend.handleApiError, hs, getItem_removeItem]
  | false =>
      have hd : Frontend.detailUserNotFound
          (Frontend.jsOrStr err.detail err.message) = true := by
        rcases h with h | h
        · rw [hs] at h; exact absurd h (by simp)
        · exact h
      simp [Frontend.handleApiError, hs, hd, getItem_removeItem]

/-- Witness for the amended C2: a 401 error clears the token and lands
on `/login`. -/
theorem handleApiError_clears_and_redirects_witness :
    (Frontend.handleApiError
        { status := some 401, responseStatus := none,
          detail := none, message := none }
        { storage := [("access_token", "tok")], href := "/admin" }).1.href
        = "/login" ∧
    Frontend.getItem
        (Frontend.handleApiError
          { status := some 401, responseStatus := none,
            detail := none, message := none }
          { storage := [("access_token", "tok")], href := "/admin" }).1.storage
        "access_token" = none :=
  ⟨(handleApiError_clears_and_redirects _ _ (Or.inl (by decide))).2.2.1,
   (handleApiError_clears_and_redirects _ _ (Or.inl (by decide))).1⟩

/-- Claim C10: an error whose resolved status is neither 401 nor 403
and whose resolved detail is neither exactly `User not found` nor
contains `user not found` case-insensitively leaves the browser state
untouched: storage and location are unchanged and no action is
performed. -/
theorem handleApiError_frame (err : Frontend.ApiError) (b : Frontend.Browser)
    (h1 : ∀ v, Frontend.jsOrNat err.status err.responseStatus = some v →
        v ≠ 401 ∧ v ≠ 403)
    (h2 : ∀ s, Frontend.jsOrStr err.detail err.message = some s →
        s ≠ "User not found" ∧
        Frontend.strContains (StrUtil.strLower s) "user not found" = false) :
    Frontend.handleApiError err b = (b, []) := by
  have hs : Frontend.statusIsAuthError
      (Frontend.jsOrNat err.status err.responseStatus) = false := by
    cases hv : Frontend.jsOrNat err.status err.responseStatus with
    | none => rfl
    | some v =>
        obtain ⟨h401, h403⟩ := h1 v hv
        simp [Frontend.statusIsAuthError, h401, h403]
  have hd : Frontend.detailUserNotFound
      (Frontend.jsOrStr err.detail err.message) = false := by
    cases hv : Frontend.jsOrStr err.detail err.message with
    | none => rfl
    | some s =>
        obtain ⟨hu1, hu2⟩ := h2 s hv
        simp [Frontend.detailUserNotFound, hu1, hu2]
  simp [Frontend.handleApiError, hs, hd]

/-- Witness for C10: a 500 error with a server-error detail changes
nothing. -/
theorem handleApiError_frame_witness :
    Frontend.handleApiError
        { status := some 500, responseStatus := none,
          detail := some "Internal Server Error", message := none }
        { storage := [("access_token", "tok")], href := "/admin" }
      = ({ storage := [("access_token", "tok")], href := "/admin" }, []) :=
  handleApiError_frame _ _
    (by
      intro v hv
      have hv2 : (500 : Nat) = v := by simpa [Frontend.jsOrNat] using hv
      subst hv2
      exact ⟨by decide, by decide⟩)
    (by
      intro s hv
      have hv2 : "Internal Server Error" = s := by
        simpa [Frontend.jsOrStr] using hv
      subst hv2
      exact ⟨by decide, by decide⟩)

/-- Claim C4 counterexample: when no `access_token` is stored — and
likewise when the stored token is the empty string, which is falsy in
JavaScript — the interceptor attaches nothing: the request goes out
unchanged and carries no `Authorization` header. -/
theorem requestInterceptor_no_token_counterexample :
    Frontend.getItem [] "access_token" = none ∧
    Frontend.requestInterceptor []
        { url := "/api/v1/users/me", headers := [] }
      = { url := "/api/v1/users/me", headers := [] } ∧
    Frontend.getHeader
        (Frontend.requestInterceptor []
          { url := "/api/v1/users/me", headers := [] })
        "Authorization" = none ∧
    Frontend.requestInterceptor [("access_token", "")]
        { url := "/api/v1/users/me", headers := [] }
      = { url := "/api/v1/users/me", headers := [] } ∧
    Frontend.getHeader
        (Frontend.requestInterceptor [("access_token", "")]
          { url := "/api/v1/users/me", headers := [] })
        "Authorization" = none := by
  exact ⟨by decide, by decide, by decide, by decide, by decide⟩

/-- Claim C4 (amended): whenever local storage holds a non-empty token
under `access_token` (the `if (token)` truthiness check), the
interceptor attaches an `Authorization: Bearer <token>` header to the
request; when no token is stored, or the stored token is the empty
string, the request options are returned unchanged. -/
theorem requestInterceptor_bearer (storage : Frontend.Storage)
    (options : Frontend.RequestOptions) :
    (∀ token, Frontend.getItem storage "access_token" = some token →
        token ≠ "" →
        Frontend.getHeader (Frontend.requestInterceptor storage options)
            "Authorization" = some ("Bearer " ++ token)) ∧
    (Frontend.getItem storage "access_token" = none →
        Frontend.requestInterceptor storage options = options) ∧
    (Frontend.getItem storage "access_token" = some "" →
        Frontend.requestInterceptor storage options = options) := by
  refine ⟨?_, ?_, ?_⟩
  · intro token h hne
    have hne2 : (token == "") = false := beq_eq_false_iff_ne.mpr hne
    simp only [Frontend.requestInterceptor, h, hne2, Bool.false_eq_true,
      if_false]
    simp only [Frontend.getHeader, Frontend.setHeader]
    rw [find?_filtered_append]
    rfl
  · intro h
    simp [Frontend.requestInterceptor, h]
  · intro h
    simp [Frontend.requestInterceptor, h]

/-- Witness for the amended C4: with a stored non-empty token the
header is attached; with empty storage, or an empty-string token, the
options pass through. -/
theorem requestInterceptor_bearer_witness :
    Frontend.getHeader
        (Frontend.requestInterceptor [("access_token", "abc")]
          { url := "/u", headers := [("Accept", "application/json")] })
        "Authorization" = some ("Bearer " ++ "abc") ∧
    Frontend.requestInterceptor [] { url := "/u", headers := [] }
      = { url := "/u", headers := [] } ∧
    Frontend.requestInterceptor [("access_token", "")]
        { url := "/u", headers := [] }
      = { url := "/u", headers := [] } :=
  ⟨(requestInterceptor_bearer [("access_token", "abc")]
      { url := "/u", headers := [("Accept", "application/json")] }).1
      "abc" (by decide) (by decide),
   (requestInterceptor_bearer [] { url := "/u", headers := [] }).2.1
      (by decide),
   (requestInterceptor_bearer [("access_token", "")]
      { url := "/u", headers := [] }).2.2 (by decide)⟩
